import Mathlib

/-!
Shallow embedding of `src/rtsp_module.cpp` (class `RTSPReader` and the
pybind11 `def_buffer` for `cv::Mat`).

External collaborators (FFmpeg, RGA, swscale) are modelled by explicit
per-call outcome inputs: each packet delivered by `av_read_frame` is a
`PacketEvent` carrying the return values the collaborator functions
produce for that iteration of the `read()` loop.  The reader itself is
the pair of its observable fields `use_rga` and `video_stream_index`;
the owned native pointers are tracked as the boolean record `Resources`.
-/

namespace RtspModule

/-- Pixel formats relevant to the reader: `AV_PIX_FMT_DRM_PRIME` (hardware
resident), `AV_PIX_FMT_NV12`, `AV_PIX_FMT_BGR24`, and everything else. -/
inductive PixFmt
  | drmPrime
  | nv12
  | bgr24
  | other (n : Nat)
deriving DecidableEq, Repr

/-- A decoded `AVFrame`: width, height and pixel format. -/
structure DecodedFrame where
  width : Nat
  height : Nat
  format : PixFmt
deriving DecidableEq, Repr

/-- Outcome of `avcodec_receive_frame` for one packet:
`AVERROR(EAGAIN)`/`AVERROR_EOF` (both `continue` in the loop), some other
negative return (decode failure), or a decoded frame. -/
inductive RecvOutcome
  | againOrEof
  | failure
  | frame (f : DecodedFrame)
deriving DecidableEq, Repr

/-- Return status of the RGA `imcvtcolor` call. -/
inductive ImStatus
  | success
  | fail
deriving DecidableEq, Repr

/-- One packet delivered by `av_read_frame`, together with the outcomes the
collaborator calls would produce on it during this loop iteration:
`sendOk` models `avcodec_send_packet(...) >= 0`, `recv` the
`avcodec_receive_frame` outcome, `transferOk` the result of
`av_hwframe_transfer_data`, `hostFrame` the host copy written into
`hw_frame` by a successful transfer, `imcvtcolorStatus` the RGA status and
`swsOk` whether `sws_getContext` returns a non-null context. -/
structure PacketEvent where
  streamIndex : Int
  sendOk : Bool
  recv : RecvOutcome
  transferOk : Bool
  hostFrame : DecodedFrame
  imcvtcolorStatus : ImStatus
  swsOk : Bool
deriving DecidableEq, Repr

/-- The C++ exception kind.  Every `throw` in the source constructs a
`std::runtime_error`; no other exception type appears. -/
inductive ExcKind
  | runtimeError
deriving DecidableEq, Repr

/-- A thrown C++ exception: its type and its `what()` message. -/
structure CppError where
  kind : ExcKind
  msg : String
deriving DecidableEq, Repr

def openError (url : String) : CppError :=
  ⟨ExcKind.runtimeError, "Failed to open RTSP stream: " ++ url⟩

def streamInfoError : CppError :=
  ⟨ExcKind.runtimeError, "Failed to find stream info"⟩

def noVideoTrackError : CppError :=
  ⟨ExcKind.runtimeError, "No video stream found"⟩

def unsupportedCodecError : CppError :=
  ⟨ExcKind.runtimeError, "Unsupported codec"⟩

def allocCodecError : CppError :=
  ⟨ExcKind.runtimeError, "Failed to allocate codec context"⟩

def copyParamsError : CppError :=
  ⟨ExcKind.runtimeError, "Failed to copy codec parameters"⟩

def codecOpenError : CppError :=
  ⟨ExcKind.runtimeError, "Failed to open codec"⟩

def decodeError : CppError :=
  ⟨ExcKind.runtimeError, "Error decoding frame"⟩

def swsCreateError : CppError :=
  ⟨ExcKind.runtimeError, "Failed to create sws context"⟩

def eofError : CppError :=
  ⟨ExcKind.runtimeError, "Failed to read frame from RTSP stream (EOF or error)"⟩

/-- The observable state of an `RTSPReader`: the `use_rga` capability flag
and the selected video stream index.  (`-1` is never reached after a
successful construction, so the index is stored as the found index.) -/
structure RTSPReader where
  use_rga : Bool
  video_stream_index : Int
deriving DecidableEq, Repr

/-- A `cv::Mat` as observable through the module: rows, columns, channel
count and per-channel element size (`elemSize1`).  `out_mat` is always
constructed as `cv::Mat(height, width, CV_8UC3)`. -/
structure OutMat where
  rows : Nat
  cols : Nat
  channels : Nat
  elemSize1 : Nat
deriving DecidableEq, Repr

/-- `cv::Mat(height, width, CV_8UC3)`. -/
def mkBgrMat (height width : Nat) : OutMat :=
  ⟨height, width, 3, 1⟩

/-- Which conversion branch produced a returned frame: the RGA hardware
fast path (lines 178-181) or the swscale software path (lines 188-204). -/
inductive ConvPath
  | rga
  | sws
deriving DecidableEq, Repr

/-- Result of one `read()` call: the thrown error or the returned mat
(tagged with the branch that produced it), the reader state after the
call, and the packets not yet consumed from the source. -/
structure ReadResult where
  outcome : Except CppError (OutMat × ConvPath)
  state : RTSPReader
  rest : List PacketEvent

/-- `RTSPReader::convert_with_rga` (lines 227-252): builds the NV12 source
and BGR destination descriptors and returns whether `imcvtcolor` reported
`IM_STATUS_SUCCESS`. -/
def convert_with_rga (ev : PacketEvent) : Bool :=
  match ev.imcvtcolorStatus with
  | ImStatus.success => true
  | ImStatus.fail => false

/-- The swscale fallback (lines 188-204): `sws_getContext` for
`(width, height, src_format) -> (width, height, BGR24)`; a null context
throws, otherwise `sws_scale` fills `out_mat` and it is returned. -/
def swsStage (s : RTSPReader) (ev : PacketEvent) (out : OutMat)
    (rest : List PacketEvent) : ReadResult :=
  if ev.swsOk then ⟨Except.ok (out, ConvPath.sws), s, rest⟩
  else ⟨Except.error swsCreateError, s, rest⟩

/-- The conversion stage of `read()` (lines 170-204) applied to the host
frame `src`: allocate `out_mat`, try RGA when `use_rga` is set and the
source format is NV12, degrading to swscale (and clearing `use_rga`) when
RGA fails. -/
def convertStage (s : RTSPReader) (ev : PacketEvent) (src : DecodedFrame)
    (rest : List PacketEvent) : ReadResult :=
  let out := mkBgrMat src.height src.width
  if s.use_rga ∧ src.format = PixFmt.nv12 then
    if convert_with_rga ev then
      ⟨Except.ok (out, ConvPath.rga), s, rest⟩
    else
      swsStage { s with use_rga := false } ev out rest
  else
    swsStage s ev out rest

/-- `RTSPReader::read` (lines 139-210).  Walks the packet source; packets
of other streams are unreffed and skipped; a failed `avcodec_send_packet`
skips the packet; `EAGAIN`/`EOF` from `avcodec_receive_frame` continues;
any other receive failure throws `decodeError`.  A hardware-resident frame
is transferred to `hw_frame`, and a failed transfer clears `use_rga` and
continues with the next packet.  A host frame goes to the conversion
stage.  An exhausted source throws `eofError`. -/
def RTSPReader.read (s : RTSPReader) : List PacketEvent → ReadResult
  | [] => ⟨Except.error eofError, s, []⟩
  | ev :: rest =>
    if ev.streamIndex = s.video_stream_index then
      if ev.sendOk then
        match ev.recv with
        | RecvOutcome.againOrEof => RTSPReader.read s rest
        | RecvOutcome.failure => ⟨Except.error decodeError, s, rest⟩
        | RecvOutcome.frame f =>
          if s.use_rga ∧ f.format = PixFmt.drmPrime then
            if ev.transferOk then
              convertStage s ev ev.hostFrame rest
            else
              RTSPReader.read { s with use_rga := false } rest
          else
            convertStage s ev f rest
      else
        RTSPReader.read s rest
    else
      RTSPReader.read s rest

/-- The native resources the reader owns (non-null pointer fields). -/
structure Resources where
  fmt_ctx : Bool
  codec_ctx : Bool
  hw_device_ctx : Bool
  pkt : Bool
  frame : Bool
  hw_frame : Bool
deriving DecidableEq, Repr

def Resources.empty : Resources :=
  ⟨false, false, false, false, false, false⟩

/-- `RTSPReader::cleanup` (lines 254-262): frees every non-null pointer
and nulls the field, so afterwards no resource is held. -/
def cleanup (_ : Resources) : Resources :=
  Resources.empty

/-- All resources acquired by a completed construction; `hw` records
whether the DRM device context was created. -/
def allAcquired (hw : Bool) : Resources :=
  ⟨true, true, hw, true, true, true⟩

/-- A reader object together with the resources it holds. -/
structure OwnedReader where
  reader : RTSPReader
  res : Resources
deriving DecidableEq, Repr

/-- `RTSPReader::release` (lines 212-214): the body is empty — the
destructor handles cleanup.  It frees nothing and changes nothing. -/
def OwnedReader.release (r : OwnedReader) : OwnedReader := r

/-- `AVCodecID` values distinguished by the constructor. -/
inductive CodecId
  | h264
  | hevc
  | other (n : Nat)
deriving DecidableEq, Repr

/-- `AVMediaType` of a stream's codec parameters. -/
inductive MediaType
  | video
  | audio
  | data
deriving DecidableEq, Repr

/-- One `AVStream`'s codec parameters, as inspected by the constructor. -/
structure Track where
  codec_type : MediaType
  codec_id : CodecId
deriving DecidableEq, Repr

/-- The decoder chosen by the constructor: a vendor decoder found by name
via `avcodec_find_decoder_by_name`, or the generic decoder registered for
the codec id via `avcodec_find_decoder`. -/
inductive DecoderChoice
  | byName (name : String)
  | generic (id : CodecId)
deriving DecidableEq, Repr

/-- Collaborator outcomes for one constructor run: which libav calls
succeed and which decoders the registry contains. -/
structure CtorEnv where
  url : String
  openOk : Bool
  findStreamInfoOk : Bool
  streams : List Track
  h264RkmppFound : Bool
  h264RkmppDecoderFound : Bool
  hevcRkmppFound : Bool
  hevcRkmppDecoderFound : Bool
  genericDecoderFound : Bool
  allocOk : Bool
  paramsToCtxOk : Bool
  hwDeviceCreateOk : Bool
  codecOpenOk : Bool
deriving DecidableEq, Repr

/-- The stream-scan loop (lines 49-54): index of the first stream whose
codec type is video. -/
def findVideoIndex : List Track → Nat → Option Nat
  | [], _ => none
  | t :: ts, i =>
    if t.codec_type = MediaType.video then some i else findVideoIndex ts (i + 1)

/-- Codec id of the stream at index `i` (the `codecpar` read at line 60). -/
def codecIdAt (streams : List Track) (i : Nat) : CodecId :=
  match streams.get? i with
  | some t => t.codec_id
  | none => CodecId.other 0

/-- The name-based rkmpp decoder lookup (lines 62-75): for H.264 try
`h264_rkmpp` then `h264_rkmpp_decoder`; for HEVC try `hevc_rkmpp` then
`hevc_rkmpp_decoder`; any other codec id is not looked up by name. -/
def findByName (env : CtorEnv) (id : CodecId) : Option DecoderChoice :=
  match id with
  | CodecId.h264 =>
    if env.h264RkmppFound then some (DecoderChoice.byName "h264_rkmpp")
    else if env.h264RkmppDecoderFound then
      some (DecoderChoice.byName "h264_rkmpp_decoder")
    else none
  | CodecId.hevc =>
    if env.hevcRkmppFound then some (DecoderChoice.byName "hevc_rkmpp")
    else if env.hevcRkmppDecoderFound then
      some (DecoderChoice.byName "hevc_rkmpp_decoder")
    else none
  | CodecId.other _ => none

/-- The fields of a successfully constructed reader. -/
structure ConstructedReader where
  decoder : DecoderChoice
  use_rga : Bool
  video_stream_index : Int
deriving DecidableEq, Repr

/-- The tail of the constructor after a decoder was chosen (lines 89-123):
allocate the codec context, copy the stream parameters, create the DRM
device context when `use_rga` is still set — clearing `use_rga` but
continuing when that creation fails (lines 101-110) — then open the codec
and allocate the packet and frame holders.  Every failure runs `cleanup()`
before throwing. -/
def ctorFinish (env : CtorEnv) (idx : Nat) (codec : DecoderChoice)
    (use_rga : Bool) :
    Except (CppError × Resources) (ConstructedReader × Resources) :=
  if ¬ env.allocOk then
    Except.error (allocCodecError,
      cleanup ⟨true, false, false, false, false, false⟩)
  else if ¬ env.paramsToCtxOk then
    Except.error (copyParamsError,
      cleanup ⟨true, true, false, false, false, false⟩)
  else if ¬ env.codecOpenOk then
    Except.error (codecOpenError,
      cleanup ⟨true, true, use_rga && env.hwDeviceCreateOk, false, false, false⟩)
  else
    Except.ok (⟨codec, use_rga && env.hwDeviceCreateOk, (idx : Int)⟩,
      allAcquired (use_rga && env.hwDeviceCreateOk))

/-- The constructor `RTSPReader::RTSPReader` (lines 26-123).  On the first
failure (`avformat_open_input != 0`) `fmt_ctx` was freed by libav itself
and only the options dictionary is released; every later failure runs
`cleanup()` before throwing.  `use_rga` starts `true` and is cleared when
the rkmpp name lookup fails (line 81); the DRM device creation and the
rest of the body are in `ctorFinish`.  `avformat_network_init`/`deinit`
are process-wide side effects outside the resource model. -/
def construct (env : CtorEnv) :
    Except (CppError × Resources) (ConstructedReader × Resources) :=
  if ¬ env.openOk then
    Except.error (openError env.url, Resources.empty)
  else if ¬ env.findStreamInfoOk then
    Except.error (streamInfoError,
      cleanup ⟨true, false, false, false, false, false⟩)
  else
    match findVideoIndex env.streams 0 with
    | none =>
      Except.error (noVideoTrackError,
        cleanup ⟨true, false, false, false, false, false⟩)
    | some idx =>
      match findByName env (codecIdAt env.streams idx) with
      | some c => ctorFinish env idx c true
      | none =>
        if env.genericDecoderFound then
          ctorFinish env idx (DecoderChoice.generic (codecIdAt env.streams idx)) false
        else
          Except.error (unsupportedCodecError,
            cleanup ⟨true, false, false, false, false, false⟩)

/-- The `def_buffer` shape computation for a `cv::Mat` (lines 294-305):
single-channel mats expose `(rows, cols)`, multi-channel mats expose
`(rows, cols, channels)`. -/
def matBufferShape (m : OutMat) : List Nat :=
  if m.channels = 1 then [m.rows, m.cols] else [m.rows, m.cols, m.channels]

/-- The numpy format descriptors `def_buffer` can emit. -/
inductive NumFmt
  | uint8
  | uint16
deriving DecidableEq, Repr

/-- The `def_buffer` format selection (lines 285-292): element size 1 maps
to `uint8`, 2 to `uint16`, anything else defaults to `uint8`. -/
def matBufferFormat (m : OutMat) : NumFmt :=
  if m.elemSize1 = 1 then NumFmt.uint8
  else if m.elemSize1 = 2 then NumFmt.uint16
  else NumFmt.uint8

/-- An event yields no frame to the loop body: wrong stream index, failed
`avcodec_send_packet`, or `EAGAIN`/`EOF` from `avcodec_receive_frame`. -/
def yieldsNoFrame (idx : Int) (ev : PacketEvent) : Bool :=
  if ev.streamIndex = idx then
    if ev.sendOk then decide (ev.recv = RecvOutcome.againOrEof) else true
  else true

/-- Well-formedness of the `av_hwframe_transfer_data` collaborator: the
host copy has the dimensions of the decoded frame (the FFmpeg contract for
a successful transfer). -/
def transferPreservesDims (ev : PacketEvent) : Bool :=
  match ev.recv with
  | RecvOutcome.frame f =>
    decide (ev.hostFrame.height = f.height ∧ ev.hostFrame.width = f.width)
  | _ => true

/-- An event whose frame decodes on the selected stream, needs no hardware
transfer, and whose software conversion succeeds. -/
def convertibleEvent (s : RTSPReader) (ev : PacketEvent) (f : DecodedFrame) : Bool :=
  decide (ev.streamIndex = s.video_stream_index) && ev.sendOk &&
    decide (ev.recv = RecvOutcome.frame f) &&
    decide (f.format ≠ PixFmt.drmPrime) && ev.swsOk

/-- Every error message the module can raise with a given stream URL. -/
def raisableErrors (url : String) : List CppError :=
  [openError url, streamInfoError, noVideoTrackError, unsupportedCodecError,
   allocCodecError, copyParamsError, codecOpenError, decodeError,
   swsCreateError, eofError]

/-- Sample decoded host frame (720p, NV12). -/
def sampleNv12Frame : DecodedFrame :=
  ⟨1280, 720, PixFmt.nv12⟩

/-- Sample decoded host frame in a format neither DRM-prime nor NV12. -/
def sampleYuvFrame : DecodedFrame :=
  ⟨1280, 720, PixFmt.other 0⟩

/-- Sample hardware-resident decoded frame. -/
def sampleHwFrame : DecodedFrame :=
  ⟨1280, 720, PixFmt.drmPrime⟩

/-- Sample event: a software-friendly frame on stream 0 that converts via
swscale. -/
def sampleSwEvent : PacketEvent :=
  ⟨0, true, RecvOutcome.frame sampleYuvFrame, true, sampleYuvFrame,
   ImStatus.success, true⟩

/-- Sample event: an NV12 frame on stream 0 whose RGA conversion fails but
whose swscale conversion succeeds. -/
def sampleRgaFailEvent : PacketEvent :=
  ⟨0, true, RecvOutcome.frame sampleNv12Frame, true, sampleNv12Frame,
   ImStatus.fail, true⟩

/-- Sample event: a hardware frame whose host transfer fails. -/
def sampleTransferFailEvent : PacketEvent :=
  ⟨0, true, RecvOutcome.frame sampleHwFrame, false, sampleNv12Frame,
   ImStatus.success, true⟩

/-- Sample event: `avcodec_receive_frame` fails hard on stream 0. -/
def sampleDecodeFailEvent : PacketEvent :=
  ⟨0, true, RecvOutcome.failure, true, sampleNv12Frame, ImStatus.success, true⟩

/-- Sample event: a packet on a non-video stream. -/
def sampleOtherStreamEvent : PacketEvent :=
  ⟨1, true, RecvOutcome.frame sampleNv12Frame, true, sampleNv12Frame,
   ImStatus.success, true⟩

/-- Sample live reader with hardware conversion enabled. -/
def sampleReader : RTSPReader :=
  ⟨true, 0⟩

/-- Sample owned reader holding all construction resources. -/
def sampleOwnedReader : OwnedReader :=
  ⟨sampleReader, allAcquired true⟩

/-- Sample constructor environment: one H.264 video stream, rkmpp decoder
present, every libav call succeeding. -/
def sampleHwEnv : CtorEnv :=
  ⟨"rtsp://cam", true, true, [⟨MediaType.video, CodecId.h264⟩],
   true, true, false, false, true, true, true, true, true⟩

/-- Sample constructor environment: audio-only source. -/
def sampleNoVideoEnv : CtorEnv :=
  ⟨"rtsp://cam", true, true, [⟨MediaType.audio, CodecId.other 0⟩],
   false, false, false, false, true, true, true, true, true⟩

lemma swsStage_state (s : RTSPReader) (ev : PacketEvent) (out : OutMat)
    (rest : List PacketEvent) : (swsStage s ev out rest).state = s := by
  unfold swsStage
  split <;> rfl

lemma swsStage_rest (s : RTSPReader) (ev : PacketEvent) (out : OutMat)
    (rest : List PacketEvent) : (swsStage s ev out rest).rest = rest := by
  unfold swsStage
  split <;> rfl

lemma swsStage_ok (s : RTSPReader) (ev : PacketEvent) (out : OutMat)
    (rest : List PacketEvent) (m : OutMat) (p : ConvPath)
    (h : (swsStage s ev out rest).outcome = Except.ok (m, p)) :
    m = out ∧ p = ConvPath.sws := by
  unfold swsStage at h
  split at h <;> simp_all

lemma convertStage_mono (s : RTSPReader) (ev : PacketEvent) (src : DecodedFrame)
    (rest : List PacketEvent)
    (h : (convertStage s ev src rest).state.use_rga = true) :
    s.use_rga = true := by
  unfold convertStage at h
  split at h
  · split at h
    · exact h
    · rw [swsStage_state] at h
      simp at h
  · rw [swsStage_state] at h
    exact h

lemma convertStage_index (s : RTSPReader) (ev : PacketEvent) (src : DecodedFrame)
    (rest : List PacketEvent) :
    (convertStage s ev src rest).state.video_stream_index = s.video_stream_index := by
  unfold convertStage
  split
  · split
    · rfl
    · rw [swsStage_state]
  · rw [swsStage_state]

lemma convertStage_ok (s : RTSPReader) (ev : PacketEvent) (src : DecodedFrame)
    (rest : List PacketEvent) (m : OutMat) (p : ConvPath)
    (h : (convertStage s ev src rest).outcome = Except.ok (m, p)) :
    m = mkBgrMat src.height src.width := by
  unfold convertStage at h
  split at h
  · split at h
    · simp only [Except.ok.injEq, Prod.mk.injEq] at h
      exact h.1.symm
    · exact (swsStage_ok _ _ _ _ _ _ h).1
  · exact (swsStage_ok _ _ _ _ _ _ h).1

lemma convertStage_false (s : RTSPReader) (ev : PacketEvent) (src : DecodedFrame)
    (rest : List PacketEvent) (h : s.use_rga = false) :
    convertStage s ev src rest =
      swsStage s ev (mkBgrMat src.height src.width) rest := by
  unfold convertStage
  simp [h]

lemma read_mono (ps : List PacketEvent) : ∀ s : RTSPReader,
    (RTSPReader.read s ps).state.use_rga = true → s.use_rga = true := by
  induction ps with
  | nil => exact fun s h => h
  | cons ev rest ih =>
    intro s h
    unfold RTSPReader.read at h
    split at h
    · split at h
      · split at h
        · exact ih s h
        · exact h
        · split at h
          · split at h
            · exact convertStage_mono _ _ _ _ h
            · have := ih _ h
              simp at this
          · exact convertStage_mono _ _ _ _ h
      · exact ih s h
    · exact ih s h

lemma read_index (ps : List PacketEvent) : ∀ s : RTSPReader,
    (RTSPReader.read s ps).state.video_stream_index = s.video_stream_index := by
  induction ps with
  | nil => exact fun s => rfl
  | cons ev rest ih =>
    intro s
    unfold RTSPReader.read
    split
    · split
      · split
        · exact ih s
        · rfl
        · split
          · split
            · exact convertStage_index _ _ _ _
            · exact ih _
          · exact convertStage_index _ _ _ _
      · exact ih s
    · exact ih s

lemma read_false (ps : List PacketEvent) : ∀ s : RTSPReader, s.use_rga = false →
    (RTSPReader.read s ps).state = s ∧
    ∀ m p, (RTSPReader.read s ps).outcome = Except.ok (m, p) →
      p = ConvPath.sws := by
  induction ps with
  | nil =>
    intro s _
    exact ⟨rfl, fun m p h => by simp [RTSPReader.read] at h⟩
  | cons ev rest ih =>
    intro s hs
    unfold RTSPReader.read
    split
    · split
      · split
        · exact ih s hs
        · exact ⟨rfl, fun m p h => by simp at h⟩
        · split
          · rename_i hc
            rw [hs] at hc
            simp at hc
          · rw [convertStage_false _ _ _ _ hs]
            refine ⟨swsStage_state _ _ _ _, fun m p h => ?_⟩
            exact (swsStage_ok _ _ _ _ _ _ h).2
      · exact ih s hs
    · exact ih s hs

lemma read_ok_src (ps : List PacketEvent) : ∀ (s : RTSPReader) (m : OutMat)
    (p : ConvPath), (RTSPReader.read s ps).outcome = Except.ok (m, p) →
    ∃ ev ∈ ps, ∃ f, ev.recv = RecvOutcome.frame f ∧
      (m = mkBgrMat f.height f.width ∨
        m = mkBgrMat ev.hostFrame.height ev.hostFrame.width) := by
  induction ps with
  | nil =>
    intro s m p h
    simp [RTSPReader.read] at h
  | cons ev rest ih =>
    intro s m p h
    unfold RTSPReader.read at h
    split at h
    · split at h
      · split at h
        · obtain ⟨ev', hmem, hf⟩ := ih _ _ _ h
          exact ⟨ev', List.mem_cons_of_mem _ hmem, hf⟩
        · simp at h
        · rename_i f hrecv
          split at h
          · split at h
            · exact ⟨ev, List.mem_cons_self _ _, f, hrecv,
                Or.inr (convertStage_ok _ _ _ _ _ _ h)⟩
            · obtain ⟨ev', hmem, hf⟩ := ih _ _ _ h
              exact ⟨ev', List.mem_cons_of_mem _ hmem, hf⟩
          · exact ⟨ev, List.mem_cons_self _ _, f, hrecv,
              Or.inl (convertStage_ok _ _ _ _ _ _ h)⟩
      · obtain ⟨ev', hmem, hf⟩ := ih _ _ _ h
        exact ⟨ev', List.mem_cons_of_mem _ hmem, hf⟩
    · obtain ⟨ev', hmem, hf⟩ := ih _ _ _ h
      exact ⟨ev', List.mem_cons_of_mem _ hmem, hf⟩

lemma read_noFrames (ps : List PacketEvent) : ∀ s : RTSPReader,
    (∀ ev ∈ ps, yieldsNoFrame s.video_stream_index ev = true) →
    RTSPReader.read s ps = ⟨Except.error eofError, s, []⟩ := by
  induction ps with
  | nil => exact fun s _ => rfl
  | cons ev rest ih =>
    intro s hall
    have hev := hall ev (List.mem_cons_self _ _)
    have htail : ∀ e ∈ rest, yieldsNoFrame s.video_stream_index e = true :=
      fun e he => hall e (List.mem_cons_of_mem _ he)
    unfold yieldsNoFrame at hev
    unfold RTSPReader.read
    by_cases h1 : ev.streamIndex = s.video_stream_index
    · rw [if_pos h1]
      rw [if_pos h1] at hev
      by_cases h2 : ev.sendOk = true
      · rw [if_pos h2]
        rw [if_pos h2] at hev
        have h3 : ev.recv = RecvOutcome.againOrEof := of_decide_eq_true hev
        rw [h3]
        exact ih s htail
      · rw [if_neg h2]
        exact ih s htail
    · rw [if_neg h1]
      exact ih s htail

lemma read_cons_frame (s : RTSPReader) (ev : PacketEvent) (f : DecodedFrame)
    (tl : List PacketEvent) (h1 : ev.streamIndex = s.video_stream_index)
    (h2 : ev.sendOk = true) (h3 : ev.recv = RecvOutcome.frame f) :
    RTSPReader.read s (ev :: tl) =
      if s.use_rga = true ∧ f.format = PixFmt.drmPrime then
        (if ev.transferOk = true then convertStage s ev ev.hostFrame tl
         else RTSPReader.read { s with use_rga := false } tl)
      else convertStage s ev f tl := by
  conv_lhs => rw [RTSPReader.read]
  rw [if_pos h1, if_pos h2, h3]

lemma read_convertible (s : RTSPReader) (ev : PacketEvent) (f : DecodedFrame)
    (tl : List PacketEvent) (h : convertibleEvent s ev f = true) :
    ∃ p s', RTSPReader.read s (ev :: tl) =
      ⟨Except.ok (mkBgrMat f.height f.width, p), s', tl⟩ := by
  unfold convertibleEvent at h
  simp only [Bool.and_eq_true, decide_eq_true_eq] at h
  obtain ⟨⟨⟨⟨h1, h2⟩, h3⟩, h4⟩, h5⟩ := h
  by_cases h6 : s.use_rga = true ∧ f.format = PixFmt.nv12
  · by_cases h7 : convert_with_rga ev = true
    · refine ⟨ConvPath.rga, s, ?_⟩
      rw [read_cons_frame s ev f tl h1 h2 h3, if_neg (fun hc => h4 hc.2)]
      simp only [convertStage]
      rw [if_pos h6, if_pos h7]
    · refine ⟨ConvPath.sws, { s with use_rga := false }, ?_⟩
      rw [read_cons_frame s ev f tl h1 h2 h3, if_neg (fun hc => h4 hc.2)]
      simp only [convertStage]
      rw [if_pos h6, if_neg h7]
      simp only [swsStage]
      rw [if_pos h5]
  · refine ⟨ConvPath.sws, s, ?_⟩
    rw [read_cons_frame s ev f tl h1 h2 h3, if_neg (fun hc => h4 hc.2)]
    simp only [convertStage]
    rw [if_neg h6]
    simp only [swsStage]
    rw [if_pos h5]

lemma findVideoIndex_none (ts : List Track) : ∀ i : Nat,
    (∀ t ∈ ts, t.codec_type ≠ MediaType.video) →
    findVideoIndex ts i = none := by
  induction ts with
  | nil => exact fun i _ => rfl
  | cons t ts ih =>
    intro i hall
    unfold findVideoIndex
    rw [if_neg (hall t (List.mem_cons_self _ _))]
    exact ih _ (fun u hu => hall u (List.mem_cons_of_mem _ hu))

lemma ctorFinish_error_empty (env : CtorEnv) (idx : Nat) (c : DecoderChoice)
    (u : Bool) (e : CppError) (res : Resources)
    (h : ctorFinish env idx c u = Except.error (e, res)) :
    res = Resources.empty := by
  unfold ctorFinish at h
  split at h
  · simp only [Except.error.injEq, Prod.mk.injEq] at h
    exact h.2.symm
  · split at h
    · simp only [Except.error.injEq, Prod.mk.injEq] at h
      exact h.2.symm
    · split at h
      · simp only [Except.error.injEq, Prod.mk.injEq] at h
        exact h.2.symm
      · simp at h

lemma ctorFinish_ok (env : CtorEnv) (idx : Nat) (c : DecoderChoice) (u : Bool)
    (hAlloc : env.allocOk = true) (hParams : env.paramsToCtxOk = true)
    (hCodecOpen : env.codecOpenOk = true) :
    ctorFinish env idx c u =
      Except.ok (⟨c, u && env.hwDeviceCreateOk, (idx : Int)⟩,
        allAcquired (u && env.hwDeviceCreateOk)) := by
  unfold ctorFinish
  simp [hAlloc, hParams, hCodecOpen]

lemma construct_error_empty (env : CtorEnv) (e : CppError) (res : Resources)
    (h : construct env = Except.error (e, res)) : res = Resources.empty := by
  unfold construct at h
  split at h
  · simp only [Except.error.injEq, Prod.mk.injEq] at h
    exact h.2.symm
  · split at h
    · simp only [Except.error.injEq, Prod.mk.injEq] at h
      exact h.2.symm
    · split at h
      · simp only [Except.error.injEq, Prod.mk.injEq] at h
        exact h.2.symm
      · rename_i idx _
        split at h
        · exact ctorFinish_error_empty _ _ _ _ _ _ h
        · split at h
          · exact ctorFinish_error_empty _ _ _ _ _ _ h
          · simp only [Except.error.injEq, Prod.mk.injEq] at h
            exact h.2.symm

lemma matBuffer_mk (height width : Nat) :
    matBufferShape (mkBgrMat height width) = [height, width, 3] ∧
    matBufferFormat (mkBgrMat height width) = NumFmt.uint8 := by
  constructor <;> rfl

/-- C1: the hardware-conversion capability flag `use_rga` is monotone for
the lifetime of one reader: once it is disabled, no subsequent operation
re-enables it (`read` leaves the degraded state untouched and `release`
changes nothing), and every frame a subsequent `read` returns is produced
by the software swscale path with the same `(rows, cols, 3)` 8-bit buffer
guarantees. -/
theorem c1_use_rga_monotone (s : RTSPReader) (ps : List PacketEvent)
    (h : s.use_rga = false) :
    (RTSPReader.read s ps).state = s ∧
    (∀ r : OwnedReader, (OwnedReader.release r).reader.use_rga = r.reader.use_rga) ∧
    ∀ m p, (RTSPReader.read s ps).outcome = Except.ok (m, p) →
      p = ConvPath.sws ∧ m.channels = 3 ∧ m.elemSize1 = 1 ∧
        matBufferShape m = [m.rows, m.cols, 3] ∧
        matBufferFormat m = NumFmt.uint8 := by
  obtain ⟨hstate, hsws⟩ := read_false ps s h
  refine ⟨hstate, fun r => rfl, fun m p hok => ?_⟩
  obtain ⟨ev, _, f, _, hm⟩ := read_ok_src ps s m p hok
  have hch : m.channels = 3 ∧ m.elemSize1 = 1 := by
    rcases hm with hm | hm <;> rw [hm] <;> exact ⟨rfl, rfl⟩
  refine ⟨hsws m p hok, hch.1, hch.2, ?_, ?_⟩
  · simp [matBufferShape, hch.1]
  · simp [matBufferFormat, hch.2]

/-- Witness for C1: a degraded reader reading one software-convertible
packet stays degraded. -/
theorem c1_use_rga_monotone_witness :
    (RTSPReader.read ⟨false, 0⟩ [sampleSwEvent]).state = (⟨false, 0⟩ : RTSPReader) :=
  (c1_use_rga_monotone ⟨false, 0⟩ [sampleSwEvent] rfl).1

/-- C2 (amended): `release()` has an empty body — cleanup is deferred to
the destructor — so releasing twice changes nothing, frees nothing and
cannot double-free; but `read()` after `release()` does not fail with a
released-reader error: it behaves exactly like `read()` on the
un-released reader. -/
theorem c2_release_noop (r : OwnedReader) (ps : List PacketEvent) :
    OwnedReader.release (OwnedReader.release r) = OwnedReader.release r ∧
    (OwnedReader.release r).res = r.res ∧
    RTSPReader.read (OwnedReader.release r).reader ps =
      RTSPReader.read r.reader ps :=
  ⟨rfl, rfl, rfl⟩

/-- C2 counterexample: on a live reader holding all resources, two
`release()` calls leave the object untouched, and a subsequent `read()`
still returns a frame instead of failing with a released-reader error —
no `ClosedError` exists anywhere in the module. -/
theorem c2_counterexample :
    OwnedReader.release (OwnedReader.release sampleOwnedReader) =
      sampleOwnedReader ∧
    (RTSPReader.read (OwnedReader.release
        (OwnedReader.release sampleOwnedReader)).reader [sampleSwEvent]).outcome =
      Except.ok (mkBgrMat 720 1280, ConvPath.sws) :=
  ⟨rfl, rfl⟩

/-- C3: every successfully returned frame is the canonical
`(height, width, 3)` 8-bit unsigned buffer for the decoded frame the call
consumed, on both conversion paths (under the FFmpeg transfer contract
that a successful host transfer preserves dimensions). -/
theorem c3_frame_shape (s : RTSPReader) (ps : List PacketEvent) (m : OutMat)
    (p : ConvPath) (hdims : ∀ ev ∈ ps, transferPreservesDims ev = true)
    (h : (RTSPReader.read s ps).outcome = Except.ok (m, p)) :
    ∃ ev ∈ ps, ∃ f, ev.recv = RecvOutcome.frame f ∧
      m = mkBgrMat f.height f.width ∧
      matBufferShape m = [f.height, f.width, 3] ∧
      matBufferFormat m = NumFmt.uint8 := by
  obtain ⟨ev, hmem, f, hrecv, hm⟩ := read_ok_src ps s m p h
  have hmf : m = mkBgrMat f.height f.width := by
    rcases hm with hm | hm
    · exact hm
    · have hd := hdims ev hmem
      simp only [transferPreservesDims, hrecv, decide_eq_true_eq] at hd
      rw [hm, hd.1, hd.2]
  refine ⟨ev, hmem, f, hrecv, hmf, ?_, ?_⟩
  · rw [hmf]
    exact (matBuffer_mk f.height f.width).1
  · rw [hmf]
    exact (matBuffer_mk f.height f.width).2

/-- Witness for C3: a concrete successful read returns the 720x1280x3
uint8 buffer of its decoded frame. -/
theorem c3_frame_shape_witness :
    ∃ ev ∈ [sampleSwEvent], ∃ f, ev.recv = RecvOutcome.frame f ∧
      mkBgrMat 720 1280 = mkBgrMat f.height f.width ∧
      matBufferShape (mkBgrMat 720 1280) = [f.height, f.width, 3] ∧
      matBufferFormat (mkBgrMat 720 1280) = NumFmt.uint8 :=
  c3_frame_shape sampleReader [sampleSwEvent] (mkBgrMat 720 1280) ConvPath.sws
    (by decide) rfl

/-- C4: the RGA fast path runs iff `use_rga` is enabled, the source frame
is NV12 and `imcvtcolor` succeeds; when `imcvtcolor` fails the flag is
cleared and the very same frame falls through to the swscale stage
(succeeding there when `sws_getContext` succeeds, instead of the `read()`
call failing); outside the gate only the software path can return a
frame. -/
theorem c4_rga_gating (s : RTSPReader) (ev : PacketEvent) (src : DecodedFrame)
    (rest : List PacketEvent) :
    (s.use_rga = true → src.format = PixFmt.nv12 → convert_with_rga ev = true →
      convertStage s ev src rest =
        ⟨Except.ok (mkBgrMat src.height src.width, ConvPath.rga), s, rest⟩) ∧
    (s.use_rga = true → src.format = PixFmt.nv12 → convert_with_rga ev = false →
      convertStage s ev src rest =
        swsStage { s with use_rga := false } ev (mkBgrMat src.height src.width) rest ∧
      (ev.swsOk = true →
        convertStage s ev src rest =
          ⟨Except.ok (mkBgrMat src.height src.width, ConvPath.sws),
           { s with use_rga := false }, rest⟩)) ∧
    (¬ (s.use_rga = true ∧ src.format = PixFmt.nv12) →
      ∀ m p, (convertStage s ev src rest).outcome = Except.ok (m, p) →
        p = ConvPath.sws ∧ m = mkBgrMat src.height src.width) := by
  refine ⟨fun h1 h2 h3 => ?_, fun h1 h2 h3 => ?_, fun hn m p h => ?_⟩
  · simp only [convertStage]
    rw [if_pos ⟨h1, h2⟩, if_pos h3]
  · have he : convertStage s ev src rest =
        swsStage { s with use_rga := false } ev (mkBgrMat src.height src.width) rest := by
      simp only [convertStage]
      rw [if_pos ⟨h1, h2⟩, if_neg (by simp [h3])]
    refine ⟨he, fun hsws => ?_⟩
    rw [he]
    simp only [swsStage]
    rw [if_pos hsws]
  · have he : convertStage s ev src rest =
        swsStage s ev (mkBgrMat src.height src.width) rest := by
      simp only [convertStage]
      rw [if_neg hn]
    rw [he] at h
    exact ⟨(swsStage_ok _ _ _ _ _ _ h).2, (swsStage_ok _ _ _ _ _ _ h).1⟩

/-- Witness for C4: a concrete NV12 frame whose RGA conversion fails is
still converted by the swscale stage, with `use_rga` cleared. -/
theorem c4_rga_gating_witness :
    convertStage sampleReader sampleRgaFailEvent sampleNv12Frame [] =
      ⟨Except.ok (mkBgrMat 720 1280, ConvPath.sws), ⟨false, 0⟩, []⟩ :=
  ((c4_rga_gating sampleReader sampleRgaFailEvent sampleNv12Frame []).2.1
    rfl rfl rfl).2 rfl

/-- C5: every construction-time failure hands back an empty resource set —
each failing path runs `cleanup()`, or failed before acquiring anything —
and in particular construction against a source with no video track fails
with the no-video-track error and leaves no acquired resources. -/
theorem c5_ctor_cleanup (env : CtorEnv) :
    (∀ e res, construct env = Except.error (e, res) → res = Resources.empty) ∧
    (env.openOk = true → env.findStreamInfoOk = true →
      (∀ t ∈ env.streams, t.codec_type ≠ MediaType.video) →
      construct env = Except.error (noVideoTrackError, Resources.empty)) := by
  refine ⟨fun e res h => construct_error_empty env e res h, fun h1 h2 h3 => ?_⟩
  unfold construct
  rw [if_neg (by simp [h1]), if_neg (by simp [h2]),
    findVideoIndex_none env.streams 0 h3]
  rfl

/-- Witness for C5: construction against an audio-only source fails with
the no-video-track error and holds no resources. -/
theorem c5_ctor_cleanup_witness :
    construct sampleNoVideoEnv =
      Except.error (noVideoTrackError, Resources.empty) :=
  (c5_ctor_cleanup sampleNoVideoEnv).2 rfl rfl (by decide)

/-- C6: decoder selection tries the vendor rkmpp decoder by name first;
if the name lookup fails the generic decoder registered for the codec id
is used in software mode; if neither exists construction fails with the
unsupported-codec error; and when a named (hardware) decoder was chosen
but DRM device creation fails, construction still succeeds with the same
decoder and `use_rga` cleared. -/
theorem c6_decoder_selection (env : CtorEnv) (idx : Nat)
    (hOpen : env.openOk = true) (hInfo : env.findStreamInfoOk = true)
    (hIdx : findVideoIndex env.streams 0 = some idx)
    (hAlloc : env.allocOk = true) (hParams : env.paramsToCtxOk = true)
    (hCodecOpen : env.codecOpenOk = true) :
    (∀ c, findByName env (codecIdAt env.streams idx) = some c →
      construct env = Except.ok (⟨c, env.hwDeviceCreateOk, (idx : Int)⟩,
        allAcquired env.hwDeviceCreateOk)) ∧
    (findByName env (codecIdAt env.streams idx) = none →
      env.genericDecoderFound = true →
      construct env = Except.ok
        (⟨DecoderChoice.generic (codecIdAt env.streams idx), false, (idx : Int)⟩,
         allAcquired false)) ∧
    (findByName env (codecIdAt env.streams idx) = none →
      env.genericDecoderFound = false →
      construct env = Except.error (unsupportedCodecError, Resources.empty)) := by
  have hbase : construct env =
      match findByName env (codecIdAt env.streams idx) with
      | some c => ctorFinish env idx c true
      | none =>
        if env.genericDecoderFound then
          ctorFinish env idx (DecoderChoice.generic (codecIdAt env.streams idx)) false
        else
          Except.error (unsupportedCodecError,
            cleanup ⟨true, false, false, false, false, false⟩) := by
    unfold construct
    rw [if_neg (by simp [hOpen]), if_neg (by simp [hInfo]), hIdx]
  refine ⟨fun c hc => ?_, fun hc hg => ?_, fun hc hg => ?_⟩
  · rw [hbase, hc]
    simpa using ctorFinish_ok env idx c true hAlloc hParams hCodecOpen
  · rw [hbase, hc, if_pos hg]
    simpa using ctorFinish_ok env idx
      (DecoderChoice.generic (codecIdAt env.streams idx)) false
      hAlloc hParams hCodecOpen
  · rw [hbase, hc]
    simp [hg, cleanup]

/-- Witness for C6: an H.264 stream with the rkmpp decoder present and the
DRM device available selects `h264_rkmpp` with hardware conversion on. -/
theorem c6_decoder_selection_witness :
    construct sampleHwEnv =
      Except.ok (⟨DecoderChoice.byName "h264_rkmpp", true, 0⟩, allAcquired true) :=
  (c6_decoder_selection sampleHwEnv 0 rfl rfl rfl rfl rfl rfl).1
    (DecoderChoice.byName "h264_rkmpp") rfl

/-- C7: when the packet source is exhausted without producing a decodable
frame, `read()` fails with the explicit end-of-stream error (leaving the
reader state untouched); and a successful `read()` always stems from an
actually decoded frame — no empty or sentinel frame is ever returned. -/
theorem c7_eof (s : RTSPReader) (ps : List PacketEvent) :
    ((∀ ev ∈ ps, yieldsNoFrame s.video_stream_index ev = true) →
      RTSPReader.read s ps = ⟨Except.error eofError, s, []⟩) ∧
    (∀ m p, (RTSPReader.read s ps).outcome = Except.ok (m, p) →
      ∃ ev ∈ ps, ∃ f, ev.recv = RecvOutcome.frame f) := by
  refine ⟨read_noFrames ps s, fun m p h => ?_⟩
  obtain ⟨ev, hmem, f, hrecv, _⟩ := read_ok_src ps s m p h
  exact ⟨ev, hmem, f, hrecv⟩

/-- Witness for C7: a source yielding only a non-video packet makes
`read()` fail with the end-of-stream error. -/
theorem c7_eof_witness :
    RTSPReader.read sampleReader [sampleOtherStreamEvent] =
      ⟨Except.error eofError, sampleReader, []⟩ :=
  (c7_eof sampleReader [sampleOtherStreamEvent]).1 (by decide)

/-- C8: a decode failure is at most fatal to the current `read()` call:
the reader keeps its stream selection, and a subsequent `read()` on the
post-error state succeeds as soon as an event carrying a convertible
decoded frame arrives. -/
theorem c8_decode_recovery (s : RTSPReader) (ps : List PacketEvent)
    (s' : RTSPReader) (rest : List PacketEvent) (ev : PacketEvent)
    (f : DecodedFrame) (tl : List PacketEvent)
    (h : RTSPReader.read s ps = ⟨Except.error decodeError, s', rest⟩)
    (hev : convertibleEvent s' ev f = true) :
    s'.video_stream_index = s.video_stream_index ∧
    ∃ p s'', RTSPReader.read s' (ev :: tl) =
      ⟨Except.ok (mkBgrMat f.height f.width, p), s'', tl⟩ := by
  have hidx : s'.video_stream_index = s.video_stream_index := by
    have hi := read_index ps s
    rw [h] at hi
    exact hi
  exact ⟨hidx, read_convertible s' ev f tl hev⟩

/-- Witness for C8: after a concrete decode failure, the same reader's
next read on a valid frame succeeds. -/
theorem c8_decode_recovery_witness :
    sampleReader.video_stream_index = sampleReader.video_stream_index ∧
    ∃ p s'', RTSPReader.read sampleReader [sampleSwEvent] =
      ⟨Except.ok (mkBgrMat 720 1280, p), s'', []⟩ :=
  c8_decode_recovery sampleReader [sampleDecodeFailEvent] sampleReader []
    sampleSwEvent sampleYuvFrame [] rfl rfl

/-- C9 counterexample: the transient decode failure and the end-of-stream
failure are distinct failure modes, yet they carry the same exception
kind (`std::runtime_error`) and differ only in message text — the caller
cannot tell them apart by kind. -/
theorem c9_counterexample :
    decodeError.kind = eofError.kind ∧ decodeError.msg ≠ eofError.msg := by
  exact ⟨rfl, by decide⟩

/-- C9 (amended): every failure the module raises shares the single
generic exception kind `std::runtime_error`; failure modes are
distinguishable only by their pairwise-distinct message texts (and an
operation on a released reader raises nothing at all). -/
theorem c9_messages_only :
    (∀ e ∈ raisableErrors "rtsp://cam", e.kind = ExcKind.runtimeError) ∧
    ((raisableErrors "rtsp://cam").map CppError.msg).Nodup := by
  decide

/-- C10: when the hardware-to-host transfer of a decoded hardware-resident
frame fails, that frame is discarded entirely — the call continues as a
read of the remaining packets with `use_rga` cleared, so the frame is
never delivered on any path and a later frame can still satisfy the same
call. -/
theorem c10_transfer_discard (s : RTSPReader) (ev : PacketEvent)
    (f : DecodedFrame) (tl : List PacketEvent)
    (h1 : s.use_rga = true) (h2 : ev.streamIndex = s.video_stream_index)
    (h3 : ev.sendOk = true) (h4 : ev.recv = RecvOutcome.frame f)
    (h5 : f.format = PixFmt.drmPrime) (h6 : ev.transferOk = false) :
    RTSPReader.read s (ev :: tl) =
      RTSPReader.read { s with use_rga := false } tl := by
  rw [read_cons_frame s ev f tl h2 h3 h4, if_pos ⟨h1, h5⟩,
    if_neg (by simp [h6])]

/-- Witness for C10: a concrete failed transfer reduces the read to a
degraded read of the remaining (empty) source. -/
theorem c10_transfer_discard_witness :
    RTSPReader.read sampleReader [sampleTransferFailEvent] =
      RTSPReader.read ⟨false, 0⟩ [] :=
  c10_transfer_discard sampleReader sampleTransferFailEvent sampleHwFrame []
    rfl rfl rfl rfl rfl rfl

end RtspModule
